import Mathlib

/-!
# Verification of the cake-shop worker (`src/index.ts`) and the
# `OrderCounter` Durable Object (`test-queue.md`, two-counter version)

Shallow embedding of the order-fulfillment worker, its queue consumer,
the HTTP endpoints relevant to the claims, and the counter actor.
Timestamps are modelled as `Nat` (ISO-8601 strings are totally ordered);
dollar prices are modelled in integer cents (the JS computation
`Math.round((base + 0.75*n)*100)/100` is exact at cent granularity).
-/

namespace CakeShop

/-- JSON values, for modelling the literal response bodies built by the code. -/
inductive Json where
  | null : Json
  | str : String → Json
  | num : Nat → Json
  | bool : Bool → Json
  | arr : List Json → Json
  | obj : List (String × Json) → Json
deriving Repr

/-- An HTTP response: status code plus a JSON object body (field list in source order). -/
structure HttpResponse where
  status : Nat
  body : List (String × Json)
deriving Repr

/-- The keys of a JSON object body, in order. -/
def respKeys (body : List (String × Json)) : List String :=
  body.map Prod.fst

/-- Order status enum, from `src/db/schema.ts` (`status` column). -/
inductive OrderStatus where
  | pending | preparing | ready | completed | cancelled
deriving DecidableEq, Repr

/-- The `statusMessages` map of `app.get('/status/:orderId')` in `src/index.ts`. -/
def statusMessage : OrderStatus → String
  | .pending => "Your order has been received and is waiting to be prepared! 📝"
  | .preparing => "Your delicious ice cream is being prepared! 👨‍🍳"
  | .ready => "Your ice cream is ready for pickup! 🎉"
  | .completed => "Order completed - hope you enjoyed it! 😋"
  | .cancelled => "Order was cancelled 😕"

/-- Status serialization as stored in the `status` text column. -/
def statusToStr : OrderStatus → String
  | .pending => "pending"
  | .preparing => "preparing"
  | .ready => "ready"
  | .completed => "completed"
  | .cancelled => "cancelled"

/-- A row of the `orders` table (`src/db/schema.ts`).  `toppings` is stored as a
JSON string in the column; we model the decoded list directly (the code always
writes `JSON.stringify(list)` and reads it back with `JSON.parse`). -/
structure OrderRecord where
  id : String
  customerName : String
  flavor : String
  size : String
  toppings : Option (List String)
  status : OrderStatus
  totalPriceCents : Option Nat
  estimatedTime : Option String
  createdAt : Nat
  updatedAt : Nat
  completedAt : Option Nat
  queuedAt : Option Nat
  processedAt : Option Nat
deriving DecidableEq, Repr

/-- The persistent order store (D1 `orders` table), keyed by order id. -/
def Store : Type := String → Option OrderRecord

/-- `db.update(orders).set(f).where(eq(orders.id, orderId))`: apply `f` to the
row with the given id if it exists; a missing row makes the update a no-op. -/
def updateWhereId (store : Store) (orderId : String) (f : OrderRecord → OrderRecord) : Store :=
  fun i => if i = orderId then (store i).map f else store i

/-- `db.insert(orders).values(rec)` keyed at `orderId`. -/
def insertOrder (store : Store) (orderId : String) (rec : OrderRecord) : Store :=
  fun i => if i = orderId then some rec else store i

/-- The dequeue write of `processIceCreamOrder`:
`set({ status: 'preparing', processedAt: now, updatedAt: now })`. -/
def setPreparing (now : Nat) (r : OrderRecord) : OrderRecord :=
  { r with status := .preparing, processedAt := some now, updatedAt := now }

/-- The success write of `processIceCreamOrder`:
`set({ status: 'completed', completedAt, updatedAt: completedAt })`. -/
def setCompleted (now : Nat) (r : OrderRecord) : OrderRecord :=
  { r with status := .completed, completedAt := some now, updatedAt := now }

/-- The failure write of the queue consumer:
`set({ status: 'cancelled', updatedAt: now })` (note: `completedAt` untouched). -/
def setCancelled (now : Nat) (r : OrderRecord) : OrderRecord :=
  { r with status := .cancelled, updatedAt := now }

/-!
## The `OrderCounter` Durable Object (two-counter version in `test-queue.md`)

The Durable Object runtime executes each incoming call to completion before the
next one begins (input gates), so each handler is embedded as an atomic state
transformation.  The in-memory counters and the persisted storage cells
(`"completedOrders"`, `"queuedOrders"`) are both part of the state.
-/

/-- State of the `OrderCounter` Durable Object: the in-memory counters and the
two persisted storage cells (absent until first written). -/
structure DOState where
  completedCount : Nat
  queuedCount : Nat
  storedCompleted : Option Nat
  storedQueued : Option Nat
deriving DecidableEq, Repr

/-- A `count_update` WebSocket frame, as built by the actor's handlers. -/
structure WsMsg where
  type : String
  completedCount : Nat
  queuedCount : Nat
  timestamp : String
deriving DecidableEq, Repr

/-- JS `storedCount || 0`: `0`, `null`/`undefined` are falsy. -/
def jsOrZero : Option Nat → Nat
  | none => 0
  | some n => if n = 0 then 0 else n

/-- `initializeCounters`: load both counters from persistent storage, defaulting
each to 0 (`storedCompleted || 0`, `storedQueued || 0`). -/
def initializeCounters (storedCompleted storedQueued : Option Nat) : Nat × Nat :=
  (jsOrZero storedCompleted, jsOrZero storedQueued)

/-- Actor activation (constructor + `initializeCounters`): the in-memory
counters are loaded from whatever is persisted; the storage cells are unchanged. -/
def activateActor (storedCompleted storedQueued : Option Nat) : DOState :=
  { completedCount := (initializeCounters storedCompleted storedQueued).1
    queuedCount := (initializeCounters storedCompleted storedQueued).2
    storedCompleted := storedCompleted
    storedQueued := storedQueued }

/-- `handleWebSocketUpgrade`: the message sent to the new subscriber
immediately upon connection (the code sends exactly this one frame on open). -/
def handleWebSocketUpgrade (s : DOState) (ts : String) : WsMsg :=
  { type := "count_update"
    completedCount := s.completedCount
    queuedCount := s.queuedCount
    timestamp := ts }

/-- `handleIncrementCompleted`: increment `completedCount`, persist it,
broadcast a snapshot, and return the JSON response body (in source field
order: `success`, `completedCount`, `queuedCount`, `message`). -/
def handleIncrementCompleted (s : DOState) (ts : String) :
    DOState × WsMsg × List (String × Json) :=
  let s1 : DOState :=
    { s with completedCount := s.completedCount + 1,
             storedCompleted := some (s.completedCount + 1) }
  ( s1,
    { type := "count_update", completedCount := s1.completedCount,
      queuedCount := s1.queuedCount, timestamp := ts },
    [ ("success", .bool true),
      ("completedCount", .num s1.completedCount),
      ("queuedCount", .num s1.queuedCount),
      ("message", .str "Completed order counter incremented") ] )

/-- `handleIncrementQueued`: increment `queuedCount`, persist it, broadcast,
and return the JSON response body. -/
def handleIncrementQueued (s : DOState) (ts : String) :
    DOState × WsMsg × List (String × Json) :=
  let s1 : DOState :=
    { s with queuedCount := s.queuedCount + 1,
             storedQueued := some (s.queuedCount + 1) }
  ( s1,
    { type := "count_update", completedCount := s1.completedCount,
      queuedCount := s1.queuedCount, timestamp := ts },
    [ ("success", .bool true),
      ("completedCount", .num s1.completedCount),
      ("queuedCount", .num s1.queuedCount),
      ("message", .str "Queued order counter incremented") ] )

/-- `handleGetCount`: return the current counts without mutation. -/
def handleGetCount (s : DOState) (ts : String) : List (String × Json) :=
  [ ("completedCount", .num s.completedCount),
    ("queuedCount", .num s.queuedCount),
    ("timestamp", .str ts) ]

/-- `handleReset`: zero both counters, persist both, broadcast, and return the
JSON response body. -/
def handleReset (s : DOState) (ts : String) :
    DOState × WsMsg × List (String × Json) :=
  let s1 : DOState :=
    { completedCount := 0, queuedCount := 0,
      storedCompleted := some 0, storedQueued := some 0 }
  ( s1,
    { type := "count_update", completedCount := 0,
      queuedCount := 0, timestamp := ts },
    [ ("success", .bool true),
      ("completedCount", .num 0),
      ("queuedCount", .num 0),
      ("message", .str "Both counters reset to 0") ] )

/-- `k` serialized `increment-completed` calls, each running to completion
(read-modify-write, persistence, broadcast) before the next begins. -/
def iterIncCompleted (k : Nat) (s : DOState) (ts : String) : DOState :=
  match k with
  | 0 => s
  | k + 1 => iterIncCompleted k (handleIncrementCompleted s ts).1 ts

/-!
## The fulfillment worker (`handler.queue` and `processIceCreamOrder`)

The environment of one message's processing attempt — the outcome of the
fulfillment step (the external fetch + simulated preparation delay), the
outcome of the best-effort counter call, and the outcome of the cancellation
write — is part of the message context, so every theorem quantifies over all
of them.  Functions return their outcome (`.ok` or the re-raised error)
together with the final store and actor state, since database writes persist
even when the handler then throws.
-/

/-- One queue message (`IceCreamOrder` body) together with the environmental
outcomes of that message's processing attempt:
* `t1` — wall time of the dequeue (`preparing`) write,
* `t2` — wall time of the success (`completed`) write,
* `tc` — wall time of the failure (`cancelled`) write,
* `ts` — timestamp string used by the counter actor,
* `fulfill` — outcome of the fulfillment step (fetch + simulated delay),
* `counterCall` — outcome of reaching the counter actor,
* `cancelWrite` — outcome of the cancellation database write. -/
structure MsgCtx where
  orderId : String
  customerName : String
  flavor : String
  size : String
  toppings : List String
  t1 : Nat
  t2 : Nat
  tc : Nat
  ts : String
  fulfill : Except String Unit
  counterCall : Except String Unit
  cancelWrite : Except String Unit

/-- `processIceCreamOrder` (`src/index.ts`): write `preparing` + `processedAt`,
run the fulfillment step (whose failure propagates out before the `completed`
write), then write `completed` + `completedAt` and make the best-effort
`increment-completed` call, whose failure is caught and never propagates. -/
def processIceCreamOrder (m : MsgCtx) (store : Store) (d : DOState) :
    Except String Unit × Store × DOState :=
  let store1 := updateWhereId store m.orderId (setPreparing m.t1)
  match m.fulfill with
  | .error e => (.error e, store1, d)
  | .ok _ =>
    let store2 := updateWhereId store1 m.orderId (setCompleted m.t2)
    match m.counterCall with
    | .ok _ => (.ok (), store2, (handleIncrementCompleted d m.ts).1)
    | .error _ => (.ok (), store2, d)

/-- One iteration of the queue consumer's `for` loop: try
`processIceCreamOrder`; on error, attempt the `cancelled` write (its own
failure is swallowed), then re-raise the original error. -/
def handleMessage (m : MsgCtx) (store : Store) (d : DOState) :
    Except String Unit × Store × DOState :=
  match processIceCreamOrder m store d with
  | (.ok _, s1, d1) => (.ok (), s1, d1)
  | (.error e, s1, d1) =>
    let s2 :=
      match m.cancelWrite with
      | .ok _ => updateWhereId s1 m.orderId (setCancelled m.tc)
      | .error _ => s1
    (.error e, s2, d1)

/-- The queue consumer `handler.queue`: iterate over the batch; a re-raised
error propagates out of the `for` loop, so the remaining messages of the
batch are not processed in this invocation. -/
def queueHandler (batch : List MsgCtx) (store : Store) (d : DOState) :
    Except String Unit × Store × DOState :=
  match batch with
  | [] => (.ok (), store, d)
  | m :: rest =>
    match handleMessage m store d with
    | (.ok _, s1, d1) => queueHandler rest s1 d1
    | (.error e, s1, d1) => (.error e, s1, d1)

/-!
## Worker transitions on a single order record (for the lifecycle invariants)
-/

/-- The three store writes the fulfillment worker can apply to an order record. -/
inductive WorkerTransition where
  | prep (t : Nat)
  | complete (t : Nat)
  | cancel (t : Nat)
deriving DecidableEq, Repr

/-- Apply one worker write to a record. -/
def applyTransition : WorkerTransition → OrderRecord → OrderRecord
  | .prep t, r => setPreparing t r
  | .complete t, r => setCompleted t r
  | .cancel t, r => setCancelled t r

/-- Apply a sequence of worker writes, oldest first. -/
def runTransitions (ts : List WorkerTransition) (r : OrderRecord) : OrderRecord :=
  ts.foldl (fun r t => applyTransition t r) r

/-- Whether a transition is the success (`completed`) write. -/
def isCompleteT : WorkerTransition → Bool
  | .complete _ => true
  | _ => false

/-!
## HTTP endpoints (`app.post('/order')`, `app.get('/status/:orderId')`)
-/

/-- `calculatePrice`, in cents: base 399/599/799 by size (599 for an
unrecognized size) plus 75 per topping.  The JS
`Math.round((basePrice + toppings.length*0.75) * 100) / 100` is exact at cent
granularity, so the cent value carries the same information. -/
def calculatePrice (size : String) (toppings : List String) : Nat :=
  let basePrice :=
    if size = "small" then 399
    else if size = "medium" then 599
    else if size = "large" then 799
    else 599
  basePrice + 75 * toppings.length

/-- `estimateTime`: base 3/5/7 minutes by size (5 for an unrecognized size),
plus one minute per two toppings, rendered as a range string. -/
def estimateTime (size : String) (toppings : List String) : String :=
  let base :=
    if size = "small" then 3
    else if size = "medium" then 5
    else if size = "large" then 7
    else 5
  let extra := toppings.length / 2
  let total := base + extra
  s!"{total}-{total + 2} minutes"

/-- The parsed body of a `POST /order` request (`Partial<IceCreamOrder>`). -/
structure PlaceRequest where
  customerName : Option String
  flavor : Option String
  size : Option String
  toppings : Option (List String)

/-- JS truthiness of an optional string field: absent or empty is falsy. -/
def present : Option String → Bool
  | none => false
  | some s => !s.isEmpty

/-- The message produced to the fulfillment queue by `POST /order`. -/
structure QueueMsg where
  orderId : String
  customerName : String
  flavor : String
  size : String
  toppings : List String
  timestamp : Nat
deriving DecidableEq, Repr

/-- `app.post('/order')`: validate the required fields and the size, insert a
`pending` order row, make the best-effort `increment-queued` counter call
(whose failure is caught and does not fail the order), enqueue the
fulfillment message, and return the success response.  `counterCall` is the
environmental outcome of reaching the counter actor. -/
def postOrder (req : PlaceRequest) (orderId : String) (now : Nat) (ts : String)
    (counterCall : Except String Unit)
    (store : Store) (d : DOState) (queue : List QueueMsg) :
    HttpResponse × Store × DOState × List QueueMsg :=
  if !(present req.customerName) || !(present req.flavor) || !(present req.size) then
    ( { status := 400,
        body := [("error", .str "Missing required fields: customerName, flavor, size")] },
      store, d, queue )
  else if !(["small", "medium", "large"].contains (req.size.getD "")) then
    ( { status := 400,
        body := [("error", .str "Invalid size. Must be: small, medium, or large")] },
      store, d, queue )
  else
    let customerName := req.customerName.getD ""
    let flavor := req.flavor.getD ""
    let size := req.size.getD ""
    let toppings := req.toppings.getD []
    let totalPrice := calculatePrice size toppings
    let estimatedTime := estimateTime size toppings
    let newOrder : OrderRecord :=
      { id := orderId, customerName := customerName, flavor := flavor,
        size := size, toppings := some toppings, status := .pending,
        totalPriceCents := some totalPrice, estimatedTime := some estimatedTime,
        createdAt := now, updatedAt := now, completedAt := none,
        queuedAt := some now, processedAt := none }
    let store1 := insertOrder store orderId newOrder
    let d1 :=
      match counterCall with
      | .ok _ => (handleIncrementQueued d ts).1
      | .error _ => d
    let queue1 := queue ++
      [{ orderId := orderId, customerName := customerName, flavor := flavor,
         size := size, toppings := toppings, timestamp := now }]
    ( { status := 200,
        body :=
          [ ("success", .bool true),
            ("message", .str "Order placed successfully! 🍦"),
            ("orderId", .str orderId),
            ("estimatedTime", .str estimatedTime),
            ("totalPrice", .num totalPrice),
            ("order", .obj
              [ ("customer", .str customerName),
                ("item", .str (size ++ " " ++ flavor ++ " ice cream")),
                ("toppings", .arr (toppings.map Json.str)) ]) ] },
      store1, d1, queue1 )

/-- A hexadecimal digit, upper or lower case (the regex's `[0-9a-f]` with the
`i` flag). -/
def hexDigit (c : Char) : Bool :=
  (('0' ≤ c && c ≤ '9') || ('a' ≤ c && c ≤ 'f') || ('A' ≤ c && c ≤ 'F'))

/-- Consume exactly `n` hex digits from the front of the character list. -/
def hexRun : Nat → List Char → Option (List Char)
  | 0, cs => some cs
  | _ + 1, [] => none
  | n + 1, c :: cs => if hexDigit c then hexRun n cs else none

/-- Consume one dash. -/
def dashRun : List Char → Option (List Char)
  | '-' :: cs => some cs
  | _ => none

/-- The anchored UUID test of `GET /status/:orderId`:
`/^[0-9a-f]\x7b8\x7d-[0-9a-f]\x7b4\x7d-[0-9a-f]\x7b4\x7d-[0-9a-f]\x7b4\x7d-[0-9a-f]\x7b12\x7d$/i`. -/
def isValidOrderId (s : String) : Bool :=
  match (((((((((hexRun 8 s.data).bind dashRun).bind
      (hexRun 4)).bind dashRun).bind
      (hexRun 4)).bind dashRun).bind
      (hexRun 4)).bind dashRun).bind
      (hexRun 12)) with
  | some [] => true
  | _ => false

/-- The `200` body of the status endpoint for a found order, field-for-field
from the source (the `estimatedTime` field is `null` unless the status is
`pending` or `preparing`). -/
def orderStatusBody (o : OrderRecord) : List (String × Json) :=
  [ ("orderId", .str o.id),
    ("customerName", .str o.customerName),
    ("status", .str (statusToStr o.status)),
    ("message", .str (statusMessage o.status)),
    ("estimatedTime",
      if o.status = .pending ∨ o.status = .preparing then
        (o.estimatedTime.map Json.str).getD .null
      else .null),
    ("totalPrice", (o.totalPriceCents.map Json.num).getD .null),
    ("item", .str (o.size ++ " " ++ o.flavor ++ " ice cream")),
    ("toppings", .arr ((o.toppings.getD []).map Json.str)),
    ("createdAt", .num o.createdAt),
    ("updatedAt", .num o.updatedAt),
    ("completedAt", (o.completedAt.map Json.num).getD .null) ]

/-- `app.get('/status/:orderId')`: reject malformed ids before touching the
database, return 404 for a well-formed id with no row, otherwise render the
order.  The endpoint only reads, so the store is returned unchanged. -/
def getStatusEndpoint (orderId : String) (store : Store) : HttpResponse × Store :=
  if !(isValidOrderId orderId) then
    ({ status := 400, body := [("error", .str "Invalid order ID format")] }, store)
  else
    match store orderId with
    | none => ({ status := 404, body := [("error", .str "Order not found")] }, store)
    | some o => ({ status := 200, body := orderStatusBody o }, store)

/-!
## Concrete fixtures used by witnesses and counterexamples
-/

/-- A freshly inserted (gateway-state) order row with the given id. -/
def demoOrder (id : String) : OrderRecord :=
  { id := id, customerName := "Alice", flavor := "Chocolate", size := "medium",
    toppings := some ["sprinkles"], status := .pending,
    totalPriceCents := some 674, estimatedTime := some "5-7 minutes",
    createdAt := 0, updatedAt := 0, completedAt := none,
    queuedAt := some 0, processedAt := none }

/-- A store holding two pending orders, "a" and "b". -/
def demoStore : Store :=
  fun i => if i = "a" then some (demoOrder "a")
    else if i = "b" then some (demoOrder "b") else none

/-- The empty order store. -/
def emptyStore : Store := fun _ => none

/-- A never-activated counter-actor state. -/
def demoDO : DOState :=
  { completedCount := 0, queuedCount := 0, storedCompleted := none, storedQueued := none }

/-- A message context whose fulfillment, counter call and cancellation write
all succeed. -/
def okMsg (id : String) : MsgCtx :=
  { orderId := id, customerName := "Alice", flavor := "Chocolate",
    size := "medium", toppings := ["sprinkles"],
    t1 := 1, t2 := 2, tc := 3, ts := "t",
    fulfill := .ok (), counterCall := .ok (), cancelWrite := .ok () }

/-- The same message context, but with a failing fulfillment step. -/
def badMsg (id : String) : MsgCtx :=
  { okMsg id with fulfill := .error "boom" }

/-!
## Helper lemmas
-/

/-- `completedAt` of the result of one worker write. -/
lemma applyTransition_completedAt (t : WorkerTransition) (r : OrderRecord) :
    (applyTransition t r).completedAt =
      match t with
      | .complete u => some u
      | _ => r.completedAt := by
  cases t <;> rfl

/-- `completedAt` is `none` after a run of worker writes iff it started `none`
and no write in the run was the success write. -/
lemma runTransitions_completedAt_none (ts : List WorkerTransition) (r : OrderRecord) :
    (runTransitions ts r).completedAt = none ↔
      (r.completedAt = none ∧ ∀ t ∈ ts, isCompleteT t = false) := by
  induction ts generalizing r with
  | nil => simp [runTransitions]
  | cons t ts ih =>
    have hstep : runTransitions (t :: ts) r = runTransitions ts (applyTransition t r) := rfl
    rw [hstep, ih]
    cases t <;>
      simp [applyTransition, setPreparing, setCompleted, setCancelled, isCompleteT] <;>
      tauto

/-- Each serialized `increment-completed` call adds exactly one. -/
lemma iterIncCompleted_completedCount (k : Nat) (s : DOState) (ts : String) :
    (iterIncCompleted k s ts).completedCount = s.completedCount + k := by
  induction k generalizing s with
  | zero => rfl
  | succ k ih =>
    show (iterIncCompleted k (handleIncrementCompleted s ts).1 ts).completedCount = _
    rw [ih]
    simp [handleIncrementCompleted]
    omega

/-- `increment-completed` never touches `queuedCount`. -/
lemma iterIncCompleted_queuedCount (k : Nat) (s : DOState) (ts : String) :
    (iterIncCompleted k s ts).queuedCount = s.queuedCount := by
  induction k generalizing s with
  | zero => rfl
  | succ k ih =>
    show (iterIncCompleted k (handleIncrementCompleted s ts).1 ts).queuedCount = _
    rw [ih]
    rfl

/-- Every call persists the counter it just computed, so the storage cell
tracks the in-memory counter. -/
lemma iterIncCompleted_storedCompleted (k : Nat) (s : DOState) (ts : String)
    (h : s.storedCompleted = some s.completedCount) :
    (iterIncCompleted k s ts).storedCompleted =
      some (iterIncCompleted k s ts).completedCount := by
  induction k generalizing s with
  | zero => exact h
  | succ k ih =>
    show (iterIncCompleted k (handleIncrementCompleted s ts).1 ts).storedCompleted = _
    exact ih _ rfl

/-!
## Claim theorems
-/

/-- C2.  For every order message whose fulfillment cycle succeeds, the stored
record goes through exactly `pending → preparing → completed`: the dequeue
write sets `status = preparing`, `processedAt = now`, `updatedAt = now` and
leaves `completedAt` unset; the success write sets `status = completed`,
`completedAt = now`, `updatedAt = now`; `processedAt ≤ completedAt`; and the
full `processIceCreamOrder` run succeeds leaving exactly that record. -/
theorem order_success_lifecycle (m : MsgCtx) (r0 : OrderRecord) (store : Store)
    (d : DOState)
    (hr : store m.orderId = some r0)
    (hp : r0.status = .pending)
    (hc : r0.completedAt = none)
    (ht : m.t1 ≤ m.t2)
    (hf : m.fulfill = .ok ()) :
    r0.status = .pending ∧
    (setPreparing m.t1 r0).status = .preparing ∧
    (setPreparing m.t1 r0).processedAt = some m.t1 ∧
    (setPreparing m.t1 r0).updatedAt = m.t1 ∧
    (setPreparing m.t1 r0).completedAt = none ∧
    (setCompleted m.t2 (setPreparing m.t1 r0)).status = .completed ∧
    (setCompleted m.t2 (setPreparing m.t1 r0)).completedAt = some m.t2 ∧
    (setCompleted m.t2 (setPreparing m.t1 r0)).updatedAt = m.t2 ∧
    (setCompleted m.t2 (setPreparing m.t1 r0)).processedAt = some m.t1 ∧
    m.t1 ≤ m.t2 ∧
    (processIceCreamOrder m store d).1 = .ok () ∧
    (processIceCreamOrder m store d).2.1 m.orderId =
      some (setCompleted m.t2 (setPreparing m.t1 r0)) := by
  refine ⟨hp, rfl, rfl, rfl, ?_, rfl, rfl, rfl, ?_, ht, ?_, ?_⟩
  · simp [setPreparing, hc]
  · simp [setCompleted, setPreparing]
  · cases hcc : m.counterCall <;> simp [processIceCreamOrder, hf, hcc]
  · cases hcc : m.counterCall <;>
      simp [processIceCreamOrder, hf, hcc, updateWhereId, hr]

/-- Witness for C2: the successful cycle on the concrete order "a". -/
theorem order_success_lifecycle_witness :
    (demoStore "a" = some (demoOrder "a") ∧
      (demoOrder "a").status = .pending ∧
      (demoOrder "a").completedAt = none ∧
      (okMsg "a").t1 ≤ (okMsg "a").t2 ∧
      (okMsg "a").fulfill = .ok ()) ∧
    ((processIceCreamOrder (okMsg "a") demoStore demoDO).1 = .ok () ∧
      (processIceCreamOrder (okMsg "a") demoStore demoDO).2.1 (okMsg "a").orderId =
        some (setCompleted (okMsg "a").t2 (setPreparing (okMsg "a").t1 (demoOrder "a")))) :=
  ⟨⟨rfl, rfl, rfl, by decide, rfl⟩,
    (order_success_lifecycle (okMsg "a") (demoOrder "a") demoStore demoDO
        rfl rfl rfl (by decide) rfl).2.2.2.2.2.2.2.2.2.2⟩

/-- C3.  K serialized `increment-completed` calls against a freshly reset
counter (0,0) yield `completedCount = K` with zero lost updates (for every K
up to 200); each call's read-modify-write and persistence run to completion
before the next begins, so the storage cell also holds K and `queuedCount`
stays 0. -/
theorem counter_serialized_increments (k : Nat) (hk : k ≤ 200) (s0 : DOState)
    (ts : String) :
    (iterIncCompleted k (handleReset s0 ts).1 ts).completedCount = k ∧
    (iterIncCompleted k (handleReset s0 ts).1 ts).queuedCount = 0 ∧
    (iterIncCompleted k (handleReset s0 ts).1 ts).storedCompleted = some k := by
  have hreset : (handleReset s0 ts).1 =
      { completedCount := 0, queuedCount := 0,
        storedCompleted := some 0, storedQueued := some 0 } := rfl
  refine ⟨?_, ?_, ?_⟩
  · rw [hreset, iterIncCompleted_completedCount]
    simp
  · rw [hreset, iterIncCompleted_queuedCount]
  · rw [hreset, iterIncCompleted_storedCompleted _ _ _ rfl,
      iterIncCompleted_completedCount]
    simp

/-- Witness for C3 at the stress bound K = 200. -/
theorem counter_serialized_increments_witness :
    200 ≤ 200 ∧
      (iterIncCompleted 200 (handleReset demoDO "t").1 "t").completedCount = 200 :=
  ⟨Nat.le_refl 200,
    (counter_serialized_increments 200 (Nat.le_refl 200) demoDO "t").1⟩

/-- C5.  Processing the same order message twice, both attempts succeeding,
leaves the record in the same terminal status `completed` as a single
successful attempt (every status write is an absolute set), but the
`increment-completed` call is issued once per successful attempt, so the
completed counter rises by 2 instead of 1. -/
theorem redelivery_status_idempotent_counter_doubled (m : MsgCtx) (r0 : OrderRecord)
    (store : Store) (d : DOState)
    (hr : store m.orderId = some r0)
    (hf : m.fulfill = .ok ())
    (hcc : m.counterCall = .ok ()) :
    (processIceCreamOrder m store d).1 = .ok () ∧
    (processIceCreamOrder m (processIceCreamOrder m store d).2.1
        (processIceCreamOrder m store d).2.2).1 = .ok () ∧
    (processIceCreamOrder m store d).2.1 m.orderId =
      some (setCompleted m.t2 (setPreparing m.t1 r0)) ∧
    (processIceCreamOrder m (processIceCreamOrder m store d).2.1
        (processIceCreamOrder m store d).2.2).2.1 m.orderId =
      some (setCompleted m.t2 (setPreparing m.t1
        (setCompleted m.t2 (setPreparing m.t1 r0)))) ∧
    (setCompleted m.t2 (setPreparing m.t1 r0)).status = .completed ∧
    (setCompleted m.t2 (setPreparing m.t1
      (setCompleted m.t2 (setPreparing m.t1 r0)))).status = .completed ∧
    (processIceCreamOrder m store d).2.2.completedCount = d.completedCount + 1 ∧
    (processIceCreamOrder m (processIceCreamOrder m store d).2.1
        (processIceCreamOrder m store d).2.2).2.2.completedCount =
      d.completedCount + 2 := by
  refine ⟨?_, ?_, ?_, ?_, rfl, rfl, ?_, ?_⟩ <;>
    simp [processIceCreamOrder, hf, hcc, updateWhereId, hr,
      handleIncrementCompleted]

/-- Witness for C5 on the concrete order "a". -/
theorem redelivery_status_idempotent_counter_doubled_witness :
    (demoStore "a" = some (demoOrder "a") ∧
      (okMsg "a").fulfill = .ok () ∧
      (okMsg "a").counterCall = .ok ()) ∧
    ((processIceCreamOrder (okMsg "a")
        (processIceCreamOrder (okMsg "a") demoStore demoDO).2.1
        (processIceCreamOrder (okMsg "a") demoStore demoDO).2.2).2.2.completedCount =
      demoDO.completedCount + 2) :=
  ⟨⟨rfl, rfl, rfl⟩,
    (redelivery_status_idempotent_counter_doubled (okMsg "a") (demoOrder "a")
        demoStore demoDO rfl rfl rfl).2.2.2.2.2.2.2⟩

/-- C6.  When the fulfillment step raises, the worker attempts the
`status = cancelled, updatedAt = now` write; a failure of that write is
swallowed, and in either case the original error is re-raised to the queue
layer. -/
theorem failure_cancels_and_reraises (m : MsgCtx) (store : Store) (d : DOState)
    (e : String) (hf : m.fulfill = .error e) :
    (handleMessage m store d).1 = .error e ∧
    (handleMessage m store d).2.2 = d ∧
    (m.cancelWrite = .ok () →
      (handleMessage m store d).2.1 =
        updateWhereId (updateWhereId store m.orderId (setPreparing m.t1))
          m.orderId (setCancelled m.tc)) ∧
    (∀ e2, m.cancelWrite = .error e2 →
      (handleMessage m store d).2.1 =
        updateWhereId store m.orderId (setPreparing m.t1)) ∧
    (∀ r, (setCancelled m.tc r).status = .cancelled ∧
      (setCancelled m.tc r).updatedAt = m.tc) := by
  cases hcw : m.cancelWrite <;>
    simp [handleMessage, processIceCreamOrder, hf, hcw, setCancelled]

/-- Witness for C6: a concrete failing message whose cancellation write
succeeds. -/
theorem failure_cancels_and_reraises_witness :
    (badMsg "a").fulfill = .error "boom" ∧
    (handleMessage (badMsg "a") demoStore demoDO).1 = .error "boom" :=
  ⟨rfl, (failure_cancels_and_reraises (badMsg "a") demoStore demoDO "boom" rfl).1⟩

/-- C7.  A failure of the call to the Counter Actor — `increment-completed`
after a successful fulfillment, `increment-queued` after the order insert —
is caught and never propagates: the processing attempt still succeeds with
the same final store, and the `POST /order` response, store and queue are
identical whether the counter call succeeds or throws. -/
theorem counter_call_best_effort :
    (∀ (m : MsgCtx) (store : Store) (d : DOState) (e : String),
      m.fulfill = .ok () →
      (processIceCreamOrder { m with counterCall := .error e } store d).1 = .ok () ∧
      (processIceCreamOrder { m with counterCall := .error e } store d).2.1 =
        (processIceCreamOrder { m with counterCall := .ok () } store d).2.1) ∧
    (∀ (req : PlaceRequest) (orderId : String) (now : Nat) (ts : String)
        (e : String) (store : Store) (d : DOState) (queue : List QueueMsg),
      (postOrder req orderId now ts (.error e) store d queue).1 =
        (postOrder req orderId now ts (.ok ()) store d queue).1 ∧
      (postOrder req orderId now ts (.error e) store d queue).2.1 =
        (postOrder req orderId now ts (.ok ()) store d queue).2.1 ∧
      (postOrder req orderId now ts (.error e) store d queue).2.2.2 =
        (postOrder req orderId now ts (.ok ()) store d queue).2.2.2) := by
  constructor
  · intro m store d e hf
    constructor <;> simp [processIceCreamOrder, hf]
  · intro req orderId now ts e store d queue
    refine ⟨?_, ?_, ?_⟩ <;> · unfold postOrder; split <;> [rfl; (split <;> rfl)]

/-- Witness for C7: the counter being down leaves the concrete successful
attempt's outcome unchanged. -/
theorem counter_call_best_effort_witness :
    (okMsg "a").fulfill = .ok () ∧
    (processIceCreamOrder { okMsg "a" with counterCall := .error "down" }
        demoStore demoDO).1 = .ok () :=
  ⟨rfl, (counter_call_best_effort.1 (okMsg "a") demoStore demoDO "down" rfl).1⟩

/-- C9.  On every push-channel open the first frame sent is a `count_update`
snapshot of the actor's current counters; on cold start the counters equal
the persisted values, or (0,0) when nothing was persisted. -/
theorem ws_open_sends_current_snapshot :
    (∀ (s : DOState) (ts : String),
      handleWebSocketUpgrade s ts =
        { type := "count_update", completedCount := s.completedCount,
          queuedCount := s.queuedCount, timestamp := ts }) ∧
    (∀ a b : Nat,
      (activateActor (some a) (some b)).completedCount = a ∧
      (activateActor (some a) (some b)).queuedCount = b) ∧
    ((activateActor none none).completedCount = 0 ∧
      (activateActor none none).queuedCount = 0) ∧
    (∀ ts : String,
      handleWebSocketUpgrade (activateActor none none) ts =
        { type := "count_update", completedCount := 0, queuedCount := 0,
          timestamp := ts }) := by
  refine ⟨fun s ts => rfl, fun a b => ?_, ⟨rfl, rfl⟩, fun ts => rfl⟩
  constructor <;>
    · simp [activateActor, initializeCounters, jsOrZero]
      omega

/-- C10.  `GET /status/:orderId`: a malformed id yields HTTP 400
`Invalid order ID format` with a response independent of the store (the store
is not read); a well-formed id with no matching row yields HTTP 404
`Order not found`; and the endpoint never mutates the store. -/
theorem status_endpoint_contract :
    (∀ (orderId : String) (store store' : Store),
      isValidOrderId orderId = false →
      (getStatusEndpoint orderId store).1 =
        { status := 400, body := [("error", .str "Invalid order ID format")] } ∧
      (getStatusEndpoint orderId store).1 = (getStatusEndpoint orderId store').1) ∧
    (∀ (orderId : String) (store : Store),
      isValidOrderId orderId = true →
      store orderId = none →
      (getStatusEndpoint orderId store).1 =
        { status := 404, body := [("error", .str "Order not found")] }) ∧
    (∀ (orderId : String) (store : Store),
      (getStatusEndpoint orderId store).2 = store) := by
  refine ⟨?_, ?_, ?_⟩
  · intro orderId store store' hbad
    constructor <;> simp [getStatusEndpoint, hbad]
  · intro orderId store hok hnone
    simp [getStatusEndpoint, hok, hnone]
  · intro orderId store
    unfold getStatusEndpoint
    split
    · rfl
    · split <;> rfl

/-- Witness for C10: a malformed id and a well-formed but unknown id. -/
theorem status_endpoint_contract_witness :
    isValidOrderId "not-a-uuid" = false ∧
    (getStatusEndpoint "not-a-uuid" demoStore).1 =
      { status := 400, body := [("error", .str "Invalid order ID format")] } ∧
    isValidOrderId "12345678-1234-1234-1234-123456789abc" = true ∧
    emptyStore "12345678-1234-1234-1234-123456789abc" = none ∧
    (getStatusEndpoint "12345678-1234-1234-1234-123456789abc" emptyStore).1 =
      { status := 404, body := [("error", .str "Order not found")] } :=
  ⟨by decide,
    (status_endpoint_contract.1 "not-a-uuid" demoStore demoStore (by decide)).1,
    by decide, rfl,
    status_endpoint_contract.2.1 "12345678-1234-1234-1234-123456789abc"
      emptyStore (by decide) rfl⟩

/-- C1 counterexample.  In the batch `[badMsg "a", okMsg "b"]` the first
message's error is re-raised from inside the `for` loop, so the sibling
message "b" is never processed: its row keeps `status = pending` and
`processedAt = none`, although processing `okMsg "b"` alone completes it. -/
theorem queue_batch_abort_cex :
    (queueHandler [badMsg "a", okMsg "b"] demoStore demoDO).1 = .error "boom" ∧
    (queueHandler [badMsg "a", okMsg "b"] demoStore demoDO).2.1 "b" =
      some (demoOrder "b") ∧
    (demoOrder "b").status = .pending ∧
    (demoOrder "b").processedAt = none ∧
    (queueHandler [okMsg "b"] demoStore demoDO).2.1 "b" =
      some (setCompleted 2 (setPreparing 1 (demoOrder "b"))) :=
  ⟨rfl, rfl, rfl, rfl, rfl⟩

/-- C1 (amended).  Batch messages are processed sequentially; as soon as one
message's processing fails, its re-raised error aborts the loop with exactly
the failing message's result: the remaining sibling messages of the batch are
not processed in that invocation (the queue layer redelivers the batch). -/
theorem queue_first_failure_aborts_batch (m : MsgCtx) (rest : List MsgCtx)
    (store : Store) (d : DOState) (e : String) (s1 : Store) (d1 : DOState)
    (h : handleMessage m store d = (.error e, s1, d1)) :
    queueHandler (m :: rest) store d = (.error e, s1, d1) := by
  simp [queueHandler, h]

/-- Witness for the amended C1 on a concrete two-message batch. -/
theorem queue_first_failure_aborts_batch_witness :
    handleMessage (badMsg "a") demoStore demoDO =
      (.error "boom",
        updateWhereId (updateWhereId demoStore "a" (setPreparing 1)) "a"
          (setCancelled 3),
        demoDO) ∧
    queueHandler [badMsg "a", okMsg "b"] demoStore demoDO =
      (.error "boom",
        updateWhereId (updateWhereId demoStore "a" (setPreparing 1)) "a"
          (setCancelled 3),
        demoDO) :=
  ⟨rfl,
    queue_first_failure_aborts_batch (badMsg "a") [okMsg "b"] demoStore demoDO
      "boom" _ _ rfl⟩

/-- C4 counterexample.  A redelivery after a successful completion makes the
claimed invariant fail: after `prep 1, complete 2, prep 3` the status is
`preparing` while `completedAt = some 2`, and a subsequent failed attempt
leaves `cancelled` with `completedAt` still set. -/
theorem completedAt_invariant_cex :
    (runTransitions [.prep 1, .complete 2, .prep 3] (demoOrder "a")).status =
      .preparing ∧
    (runTransitions [.prep 1, .complete 2, .prep 3] (demoOrder "a")).completedAt =
      some 2 ∧
    (runTransitions [.prep 1, .complete 2, .prep 3, .cancel 4]
      (demoOrder "a")).status = .cancelled ∧
    (runTransitions [.prep 1, .complete 2, .prep 3, .cancel 4]
      (demoOrder "a")).completedAt = some 2 :=
  ⟨rfl, rfl, rfl, rfl⟩

/-- C4 (amended).  `completedAt` is written only by the success transition:
for a record starting with `completedAt` unset, after any sequence of worker
transitions `completedAt` is unset exactly when no success transition
occurred.  (So the claimed invariant holds for histories without redelivery
after completion but can fail once a later transition follows a success.) -/
theorem completedAt_set_only_by_success (ts : List WorkerTransition)
    (r0 : OrderRecord) (h0 : r0.completedAt = none) :
    (runTransitions ts r0).completedAt = none ↔
      ∀ t ∈ ts, isCompleteT t = false := by
  rw [runTransitions_completedAt_none]
  simp [h0]

/-- Witness for the amended C4 on a one-transition history. -/
theorem completedAt_set_only_by_success_witness :
    (demoOrder "a").completedAt = none ∧
    ((runTransitions [WorkerTransition.prep 1] (demoOrder "a")).completedAt = none ↔
      ∀ t ∈ [WorkerTransition.prep 1], isCompleteT t = false) :=
  ⟨rfl, completedAt_set_only_by_success [WorkerTransition.prep 1] (demoOrder "a") rfl⟩

/-- C8 counterexample.  The `increment-completed` response body has no
`timestamp` field, contradicting the claim that every point call returns a
body containing `completedCount`, `queuedCount` and `timestamp`. -/
theorem counter_response_timestamp_cex :
    ¬ ("timestamp" ∈ respKeys (handleIncrementCompleted demoDO "t").2.2) := by
  decide

/-- C8 (amended).  `get-count` returns a body with fields `completedCount`,
`queuedCount`, `timestamp`; the mutating calls (`increment-completed`,
`increment-queued`, `reset`) return `success`, `completedCount`,
`queuedCount`, `message` — with no `timestamp` field. -/
theorem counter_response_shapes (s : DOState) (ts : String) :
    respKeys (handleIncrementCompleted s ts).2.2 =
      ["success", "completedCount", "queuedCount", "message"] ∧
    respKeys (handleIncrementQueued s ts).2.2 =
      ["success", "completedCount", "queuedCount", "message"] ∧
    respKeys (handleReset s ts).2.2 =
      ["success", "completedCount", "queuedCount", "message"] ∧
    respKeys (handleGetCount s ts) =
      ["completedCount", "queuedCount", "timestamp"] :=
  ⟨rfl, rfl, rfl, rfl⟩

end CakeShop
